import Mathlib

/-!
Shallow embedding of src/main.py, a command-line contact manager: an
address book of records with validated phone and birthday fields,
command handlers wrapped by an error-translating decorator, and a
pagination iterator.

Modelling conventions: Python strings are Lean Strings (sequences of
code points; the commands and stored values are ASCII, so the ASCII
case/digit/whitespace classifications model the Python ones); a Python
dict is an insertion-ordered association list whose update keeps the
key position and whose insert appends; a raised exception is an
Except.error; the process-global `contacts` dict is an explicit
AddressBook argument that each handler receives and returns.
-/

namespace HW12

/-- Python exception values the program can raise; valueError carries
str(e), which the input_error decorator shows to the user. -/
inductive PyError where
  | keyError
  | valueError (msg : String)
  | missingNameError
  | invalidBirthdayFormatError
  | indexError
  | attributeError
  deriving DecidableEq

/-- Model of Python str.split(' ') on the character list: split at
every single space, keeping empty fragments, so the empty string gives
one empty fragment, like "".split(' ') gives ['']. -/
def splitChars : List Char → List (List Char)
  | [] => [[]]
  | c :: rest =>
    if c == ' ' then [] :: splitChars rest
    else
      match splitChars rest with
      | [] => [[c]]
      | g :: gs => (c :: g) :: gs

/-- Rejoin fragments with single spaces: reconstructs the remainder a
maxsplit leaves untouched (split(' ') drops exactly one space between
adjacent fragments). -/
def joinSpaceChars : List (List Char) → List Char
  | [] => []
  | [x] => x
  | x :: xs => x ++ ' ' :: joinSpaceChars xs

/-- Python str.split(' ') with no maxsplit. -/
def pySplit (s : String) : List String :=
  (splitChars s.data).map String.mk

/-- Python str.split(' ', maxsplit): at most maxsplit splits, the
remainder (with its interior separators restored) as the final part. -/
def pySplitMax (s : String) (maxsplit : Nat) : List String :=
  let parts := splitChars s.data
  if parts.length ≤ maxsplit + 1 then parts.map String.mk
  else (parts.take maxsplit).map String.mk ++
    [String.mk (joinSpaceChars (parts.drop maxsplit))]

/-- The ASCII whitespace Python str.strip() removes (the commands here
are ASCII; Unicode spaces are outside the modelled character set). -/
def pyIsSpace (c : Char) : Bool :=
  c == ' ' || c == '\t' || c == '\n' || c == '\r' || c == '\x0b' || c == '\x0c'

/-- Python str.strip(). -/
def pyStrip (s : String) : String :=
  String.mk (((s.data.dropWhile pyIsSpace).reverse.dropWhile pyIsSpace).reverse)

/-- Python str.lower(), character by character. -/
def pyLower (s : String) : String :=
  String.mk (s.data.map Char.toLower)

/-- Python str.isdigit(): non-empty and every character a digit
(decimal digits; the modelled character set is ASCII). -/
def pyIsdigit (s : String) : Bool :=
  !s.data.isEmpty && s.data.all Char.isDigit

def isPrefixOfL : List Char → List Char → Bool
  | [], _ => true
  | _ :: _, [] => false
  | a :: as, b :: bs => a == b && isPrefixOfL as bs

/-- Model of the Python substring test `needle in hay`. -/
def containsSub : List Char → List Char → Bool
  | needle, [] => isPrefixOfL needle []
  | needle, c :: rest => isPrefixOfL needle (c :: rest) || containsSub needle rest

/-- Python sep.join(parts). -/
def joinWith (sep : String) : List String → String
  | [] => ""
  | [x] => x
  | x :: xs => x ++ sep ++ joinWith sep xs

/-- The Python format spec of a string with plain width, as in the
display lines: left-justify, pad with spaces to the width. -/
def padRight (s : String) (width : Nat) : String :=
  s ++ String.mk (List.replicate (width - s.length) ' ')

/-- A datetime.date value (proleptic Gregorian, year 1..9999). -/
structure PyDate where
  year : Nat
  month : Nat
  day : Nat
  deriving DecidableEq

def isLeap (y : Nat) : Bool :=
  (y % 4 == 0 && y % 100 != 0) || y % 400 == 0

def daysInMonth (y m : Nat) : Nat :=
  if m == 2 then (if isLeap y then 29 else 28)
  else if m == 4 || m == 6 || m == 9 || m == 11 then 30
  else 31

/-- The datetime.date constructor checks: MINYEAR ≤ year ≤ MAXYEAR,
1 ≤ month ≤ 12, 1 ≤ day ≤ days in that month of that year. -/
def dateValid (y m d : Nat) : Bool :=
  decide (1 ≤ y ∧ y ≤ 9999 ∧ 1 ≤ m ∧ m ≤ 12 ∧ 1 ≤ d ∧ d ≤ daysInMonth y m)

def digitVal (c : Char) : Nat := c.toNat - 48

/-- Python date.fromisoformat: exactly the form YYYY-MM-DD with decimal
digits, then the date constructor range checks.  (The precise message
does not matter: the Birthday setter replaces it with its own.) -/
def fromIsoformat (s : String) : Except PyError PyDate :=
  match s.data with
  | [y1, y2, y3, y4, s1, m1, m2, s2, d1, d2] =>
    if ([y1, y2, y3, y4, m1, m2, d1, d2].all Char.isDigit) && s1 == '-' && s2 == '-' then
      let y := 1000 * digitVal y1 + 100 * digitVal y2 + 10 * digitVal y3 + digitVal y4
      let m := 10 * digitVal m1 + digitVal m2
      let d := 10 * digitVal d1 + digitVal d2
      if dateValid y m d then Except.ok (PyDate.mk y m d)
      else Except.error (PyError.valueError "day is out of range for month")
    else Except.error (PyError.valueError "Invalid isoformat string")
  | _ => Except.error (PyError.valueError "Invalid isoformat string")

def leapsBefore (y : Nat) : Nat := y / 4 - y / 100 + y / 400

def daysBeforeMonth (y m : Nat) : Nat :=
  ((List.range (m - 1)).map (fun i => daysInMonth y (i + 1))).sum

/-- Python date.toordinal(): day number, with 0001-01-01 as day 1. -/
def toordinal (d : PyDate) : Nat :=
  365 * (d.year - 1) + leapsBefore (d.year - 1) + daysBeforeMonth d.year d.month + d.day

/-- Python date comparison, lexicographic on (year, month, day). -/
def dateLt (a b : PyDate) : Bool :=
  decide (a.year < b.year ∨ (a.year = b.year ∧
    (a.month < b.month ∨ (a.month = b.month ∧ a.day < b.day))))

/-- Python date.replace(year=y): rebuilds the date, re-running the
constructor checks (Feb 29 replaced into a non-leap year raises). -/
def date_replace_year (d : PyDate) (y : Nat) : Except PyError PyDate :=
  if dateValid y d.month d.day then Except.ok (PyDate.mk y d.month d.day)
  else Except.error (PyError.valueError "day is out of range for month")

def zeroPad (n width : Nat) : String :=
  let s := toString n
  String.mk (List.replicate (width - s.length) '0') ++ s

/-- Python date.isoformat(). -/
def PyDate.isoformat (d : PyDate) : String :=
  zeroPad d.year 4 ++ "-" ++ zeroPad d.month 2 ++ "-" ++ zeroPad d.day 2

/-- Model of Python range(start, stop, step) for positive step: CPython
defines it as the arithmetic sequence start + step*i with length
max(0, ceil((stop - start) / step)).  (range raises for step = 0; the
program only reaches it with the iterator page size.) -/
def pyRange (start stop step : Nat) : List Nat :=
  (List.range ((stop - start + step - 1) / step)).map (fun i => start + step * i)

/-- The Phone.value setter; Phone.__init__ assigns through this same
setter, so one function models construction and every later edit.  A
Phone object's whole state is its validated _value string, so a stored
Phone is modelled by that string. -/
def phone_value_setter (new_value : String) : Except PyError String :=
  if new_value.length ≠ 10 then
    Except.error (PyError.valueError "Phone number should be 10 digits long.")
  else if pyIsdigit new_value = false then
    Except.error (PyError.valueError "Phone number should only include digits.")
  else Except.ok new_value

/-- A Birthday object's state: its _value, None or a parsed date. -/
structure Birthday where
  val : Option PyDate
  deriving DecidableEq

/-- The Birthday.birthday setter: a falsy value (None or the empty
string) leaves _value untouched; a truthy string must parse as ISO
YYYY-MM-DD or the setter raises with its format-hint message. -/
def birthday_setter (b : Birthday) (new_value : Option String) : Except PyError Birthday :=
  match new_value with
  | none => Except.ok b
  | some s =>
    if s = "" then Except.ok b
    else
      match fromIsoformat s with
      | Except.ok d => Except.ok (Birthday.mk (some d))
      | Except.error _ => Except.error (PyError.valueError "Invalid birthday format. Use YYYY-MM-DD.")

/-- Birthday.__init__: _value starts as None, then the setter runs on
the given value. -/
def mkBirthday (v : Option String) : Except PyError Birthday :=
  birthday_setter (Birthday.mk none) v

/-- One contact record: the Name field's string, the list of Phone
values, and the Birthday field. -/
structure Record where
  name : String
  phone_numbers : List String
  birthday : Birthday
  deriving DecidableEq

/-- Record.__init__(name, birthday=None): empty phone list, Birthday
built from the optional string. -/
def mkRecord (name : String) (birthday : Option String) : Except PyError Record :=
  match mkBirthday birthday with
  | Except.error e => Except.error e
  | Except.ok b => Except.ok (Record.mk name [] b)

/-- Record.add_phone: appends Phone(phone), whose constructor
validates. -/
def Record.add_phone (r : Record) (phone : String) : Except PyError Record :=
  match phone_value_setter phone with
  | Except.error e => Except.error e
  | Except.ok p => Except.ok { r with phone_numbers := r.phone_numbers ++ [p] }

/-- Record.remove_phone: keeps the phones whose value differs. -/
def Record.remove_phone (r : Record) (phone_to_remove : String) : Record :=
  { r with phone_numbers := r.phone_numbers.filter (fun p => p != phone_to_remove) }

/-- Replacement of the first element equal to old: edit_phone takes the
first Phone object the filter finds, an alias into phone_numbers, and
assigns through its validating setter, rewriting that one element. -/
def replaceFirst : List String → String → String → List String
  | [], _, _ => []
  | p :: rest, old, v => if p == old then v :: rest else p :: replaceFirst rest old v

/-- Record.edit_phone: filter for the old value, raise if none, else
run the Phone.value setter on the aliased first match. -/
def Record.edit_phone (r : Record) (old_phone new_phone : String) : Except PyError Record :=
  match r.phone_numbers.filter (fun p => p == old_phone) with
  | [] => Except.error (PyError.valueError "Phone number not found")
  | _ :: _ =>
    match phone_value_setter new_phone with
    | Except.error e => Except.error e
    | Except.ok v => Except.ok { r with phone_numbers := replaceFirst r.phone_numbers old_phone v }

/-- Record.find_phone: first phone with the value, or none. -/
def Record.find_phone (r : Record) (phone_to_find : String) : Option String :=
  (r.phone_numbers.filter (fun p => p == phone_to_find)).head?

/-- Truthiness of the Birthday object in `if not self.birthday`: Field
defines neither __bool__ nor __len__, so the object is always truthy,
whether or not a date is stored in it. -/
def birthdayTruthy (_ : Birthday) : Bool := true

/-- Record.days_to_birthday, with date.today() as an explicit argument.
The result is the raised exception or the returned value (None or the
day count, an int from date subtraction). -/
def Record.days_to_birthday (r : Record) (today : PyDate) : Except PyError (Option Int) :=
  if birthdayTruthy r.birthday = false then Except.ok none
  else
    match r.birthday.val with
    | none => Except.error PyError.attributeError
    | some birthdate =>
      match date_replace_year birthdate today.year with
      | Except.error e => Except.error e
      | Except.ok nb =>
        if dateLt nb today then
          match date_replace_year nb (today.year + 1) with
          | Except.error e => Except.error e
          | Except.ok nb2 => Except.ok (some ((toordinal nb2 : Int) - (toordinal today : Int)))
        else Except.ok (some ((toordinal nb : Int) - (toordinal today : Int)))

/-- The AddressBook's dict, as an insertion-ordered association list:
an update keeps the key's position, an insert appends at the end. -/
structure AddressBook where
  data : List (String × Record)
  deriving DecidableEq

/-- dict.get(name). -/
def dictGet : List (String × Record) → String → Option Record
  | [], _ => none
  | kv :: rest, k => if kv.1 = k then some kv.2 else dictGet rest k

/-- dict[key] = value. -/
def dictSet : List (String × Record) → String → Record → List (String × Record)
  | [], k, v => [(k, v)]
  | kv :: rest, k, v => if kv.1 = k then (k, v) :: rest else kv :: dictSet rest k v

/-- dict.pop(name, None): removes the entry stored under the key (dict
keys are unique, so removing every match removes just that entry). -/
def dictPop : List (String × Record) → String → List (String × Record)
  | [], _ => []
  | kv :: rest, k => if kv.1 = k then dictPop rest k else kv :: dictPop rest k

/-- AddressBook.add_record: data[record.name.value] = record. -/
def AddressBook.add_record (book : AddressBook) (record : Record) : AddressBook :=
  AddressBook.mk (dictSet book.data record.name record)

/-- AddressBook.find: data.get(name_value). -/
def AddressBook.find (book : AddressBook) (name_value : String) : Option Record :=
  dictGet book.data name_value

/-- AddressBook.delete: data.pop(name, None). -/
def AddressBook.delete (book : AddressBook) (name : String) : AddressBook :=
  AddressBook.mk (dictPop book.data name)

/-- AddressBook.iterator(n): yields list(data.values())[i:i+n] for i in
range(0, len(data), n); modelled as the list of all yielded batches. -/
def AddressBook.iterator (book : AddressBook) (n : Nat) : List (List Record) :=
  (pyRange 0 book.data.length n).map
    (fun i => ((book.data.map Prod.snd).drop i).take n)

/-- The batches the iterator yields, over any list of values; the
iterator is this applied to the book's value list. -/
def chunksOf {α : Type} (l : List α) (n : Nat) : List (List α) :=
  (pyRange 0 l.length n).map (fun i => (l.drop i).take n)

/-- The message the input_error decorator produces from each caught
exception class, in its except-clause order; whatever matches no
specific clause falls to the catch-all Exception branch. -/
def input_error_msg : PyError → String
  | PyError.keyError => "Enter user name"
  | PyError.valueError msg => msg
  | PyError.missingNameError => "Name is missing. Please provide a name."
  | PyError.invalidBirthdayFormatError => "Invalid birthday format. Use YYYY-MM-DD."
  | _ => "Invalid command. Please try again."

/-- input_error around a handler that may also have mutated the book:
an ok result passes through, an exception becomes its message, and the
book is whatever the handler left behind. -/
def input_error (result : Except PyError String × AddressBook) : String × AddressBook :=
  match result with
  | (Except.ok m, b) => (m, b)
  | (Except.error e, b) => (input_error_msg e, b)

/-- input_error around a read-only handler returning a string. -/
def input_error_str (result : Except PyError String) : String :=
  match result with
  | Except.ok m => m
  | Except.error e => input_error_msg e

/-- input_error around a handler returning a message or display lines. -/
def input_error_lines (result : Except PyError (Sum String (List String))) :
    Sum String (List String) :=
  match result with
  | Except.ok v => v
  | Except.error e => Sum.inl (input_error_msg e)

/-- add_contact before the decorator.  parts = command.split(' ');
parts[1] or parts[2] missing raises IndexError; an empty name raises
MissingNameError; an existing name returns a conflict message; then
Record(name, birthday) (whose Birthday parse can raise), add_phone
(whose Phone validation can raise), and only then the insertion. -/
def add_contact_raw (book : AddressBook) (command : String) :
    Except PyError String × AddressBook :=
  let parts := pySplit command
  match parts[1]? with
  | none => (Except.error PyError.indexError, book)
  | some name =>
    match parts[2]? with
    | none => (Except.error PyError.indexError, book)
    | some phone =>
      if name = "" then (Except.error PyError.missingNameError, book)
      else
        match dictGet book.data name with
        | some _ => (Except.ok ("Contact with name " ++ name ++ " already exists."), book)
        | none =>
          match mkRecord name parts[3]? with
          | Except.error e => (Except.error e, book)
          | Except.ok new_record =>
            match Record.add_phone new_record phone with
            | Except.error e => (Except.error e, book)
            | Except.ok new_record2 =>
              (Except.ok ("Added " ++ name ++ " with phone number " ++ phone),
               AddressBook.add_record book new_record2)

/-- The decorated add handler. -/
def add_contact (book : AddressBook) (command : String) : String × AddressBook :=
  input_error (add_contact_raw book command)

/-- change_contact before the decorator.  parts = command.split(' ', 3);
a missing name returns a does-not-exist message; then the record's
phone list is replaced by [Phone(phone)] (validation can raise before
that assignment), and only afterwards the Birthday setter runs, so a
bad birthday raises with the phone list already replaced. -/
def change_contact_raw (book : AddressBook) (command : String) :
    Except PyError String × AddressBook :=
  let parts := pySplitMax command 3
  match parts[1]? with
  | none => (Except.error PyError.indexError, book)
  | some name =>
    match parts[2]? with
    | none => (Except.error PyError.indexError, book)
    | some phone =>
      match dictGet book.data name with
      | none =>
        (Except.ok ("Contact with name " ++ name ++
          " does not exist. Use \"add\" to create a new contact."), book)
      | some record =>
        match phone_value_setter phone with
        | Except.error e => (Except.error e, book)
        | Except.ok p =>
          let record1 : Record := { record with phone_numbers := [p] }
          let book1 := AddressBook.mk (dictSet book.data name record1)
          match birthday_setter record1.birthday parts[3]? with
          | Except.error e => (Except.error e, book1)
          | Except.ok b =>
            (Except.ok ("Changed phone number for " ++ name ++ " to " ++ phone),
             AddressBook.mk (dictSet book1.data name { record1 with birthday := b }))

/-- The decorated change handler. -/
def change_contact (book : AddressBook) (command : String) : String × AddressBook :=
  input_error (change_contact_raw book command)

/-- get_phone before the decorator: name = command.split(' ', 1)[1]
(IndexError when absent), then find and report. -/
def get_phone_raw (book : AddressBook) (command : String) : Except PyError String :=
  match (pySplitMax command 1)[1]? with
  | none => Except.error PyError.indexError
  | some name =>
    match AddressBook.find book name with
    | some record =>
      Except.ok ("Phone number for " ++ name ++ ": " ++ joinWith ", " record.phone_numbers)
    | none => Except.ok ("No contact found for " ++ name)

/-- The decorated phone handler (it never mutates the book). -/
def get_phone (book : AddressBook) (command : String) : String :=
  input_error_str (get_phone_raw book command)

/-- The per-record display line shared by find_contacts and show_all:
name left-justified to 20 columns, the birthday in ISO form or ten
dashes, eight spaces, then the comma-joined phones. -/
def formatLine (name : String) (record : Record) : String :=
  padRight name 20 ++ " Birthday: " ++
    (match record.birthday.val with
     | some d => PyDate.isoformat d
     | none => "----------") ++
    "        " ++ joinWith ", " record.phone_numbers

/-- The find loop over the heap built from data.values(): each item
whose name-plus-phones text contains the query is re-fetched by name
through contacts.find and formatted; were the name not found, `record`
would be None and the f-string would raise AttributeError. -/
def find_loop (book : AddressBook) (query : String) :
    List (String × Record) → Except PyError (List String)
  | [] => Except.ok []
  | kv :: rest =>
    let name := kv.2.name
    let heapText := name ++ " " ++ joinWith ";" kv.2.phone_numbers
    if containsSub (pyLower query).data (pyLower heapText).data then
      match dictGet book.data name with
      | none => Except.error PyError.attributeError
      | some record =>
        match find_loop book query rest with
        | Except.error e => Except.error e
        | Except.ok lines => Except.ok (formatLine name record :: lines)
    else find_loop book query rest

/-- find_contacts before the decorator: query = split(' ', 1)[1]
stripped; empty gives the too-small message; else the matching records'
lines, or the no-matches message when none matched. -/
def find_contacts_raw (book : AddressBook) (command : String) :
    Except PyError (Sum String (List String)) :=
  match (pySplitMax command 1)[1]? with
  | none => Except.error PyError.indexError
  | some raw_query =>
    let query := pyStrip raw_query
    if query = "" then Except.ok (Sum.inl "Search query is too small")
    else
      match find_loop book query book.data with
      | Except.error e => Except.error e
      | Except.ok results =>
        if results.isEmpty then Except.ok (Sum.inl "No contacts found that match your query")
        else Except.ok (Sum.inr results)

/-- The decorated find handler (it never mutates the book). -/
def find_contacts (book : AddressBook) (command : String) : Sum String (List String) :=
  input_error_lines (find_contacts_raw book command)

/-- show_all before the decorator: `if contacts:` is dict truthiness,
so an empty book gives the no-contacts message, else one display line
per record, in insertion order. -/
def show_all_raw (book : AddressBook) : Except PyError (Sum String (List String)) :=
  if book.data.isEmpty then Except.ok (Sum.inl "You have no contacts")
  else Except.ok (Sum.inr (book.data.map (fun kv => formatLine kv.1 kv.2)))

/-- The decorated show-all handler. -/
def show_all (book : AddressBook) : Sum String (List String) :=
  input_error_lines (show_all_raw book)

/-- The 10-decimal-digit phone rule of the data model. -/
def validPhoneB (s : String) : Bool :=
  decide (s.length = 10) && s.data.all Char.isDigit

/-- Every phone of the record satisfies the phone rule. -/
def recordOKb (r : Record) : Bool := r.phone_numbers.all validPhoneB

/-- Every phone of every stored record satisfies the phone rule. -/
def bookOKb (book : AddressBook) : Bool := book.data.all (fun kv => recordOKb kv.2)

/-- A sample record with one valid phone and no birthday. -/
def recA : Record := Record.mk "ann" ["0123456789"] (Birthday.mk none)

/-- A sample one-record book whose record has a stored birthday. -/
def book0 : AddressBook :=
  AddressBook.mk [("bob", Record.mk "bob" ["1111111111"] (Birthday.mk (some (PyDate.mk 1990 5 1))))]

/-- A sample five-record book for the pagination witness. -/
def book5 : AddressBook :=
  AddressBook.mk
    [("a", Record.mk "a" ["0000000000"] (Birthday.mk none)),
     ("b", Record.mk "b" ["1111111111"] (Birthday.mk none)),
     ("c", Record.mk "c" ["2222222222"] (Birthday.mk none)),
     ("d", Record.mk "d" ["3333333333"] (Birthday.mk none)),
     ("e", Record.mk "e" ["4444444444"] (Birthday.mk none))]


/-! Helper lemmas about the dict model. -/

theorem dictGet_dictSet_self (l : List (String × Record)) (k : String) (v : Record) :
    dictGet (dictSet l k v) k = some v := by
  induction l with
  | nil => simp [dictSet, dictGet]
  | cons kv rest ih =>
    by_cases h : kv.1 = k
    · simp [dictSet, dictGet, h]
    · simp [dictSet, dictGet, h, ih]

theorem dictGet_dictPop_self (l : List (String × Record)) (k : String) :
    dictGet (dictPop l k) k = none := by
  induction l with
  | nil => simp [dictPop, dictGet]
  | cons kv rest ih =>
    by_cases h : kv.1 = k
    · simp [dictPop, h, ih]
    · simp [dictPop, dictGet, h, ih]

theorem dictSet_dictSet_self (l : List (String × Record)) (k : String) (v w : Record) :
    dictSet (dictSet l k v) k w = dictSet l k w := by
  induction l with
  | nil => simp [dictSet]
  | cons kv rest ih =>
    by_cases h : kv.1 = k
    · simp [dictSet, h]
    · simp [dictSet, h, ih]

theorem dictSet_all {p : String × Record → Bool} (l : List (String × Record))
    (k : String) (v : Record) (hl : l.all p = true) (hv : p (k, v) = true) :
    (dictSet l k v).all p = true := by
  induction l with
  | nil => simp [dictSet, hv]
  | cons kv rest ih =>
    simp only [List.all_cons, Bool.and_eq_true] at hl
    by_cases h : kv.1 = k
    · simp [dictSet, h, hv, hl.2]
    · simp [dictSet, h, hl.1, ih hl.2]

/-! Helper lemmas about the error boundary and validation. -/

theorem input_error_snd (x : Except PyError String × AddressBook) :
    (input_error x).2 = x.2 := by
  rcases x with ⟨e, b⟩
  cases e <;> rfl

theorem input_error_on_error (e : PyError) (b : AddressBook) :
    input_error (Except.error e, b) = (input_error_msg e, b) := rfl

theorem string_length_data (s : String) : s.data.length = s.length := rfl

theorem validPhoneB_of_setter (s p : String)
    (h : phone_value_setter s = Except.ok p) : validPhoneB p = true := by
  unfold phone_value_setter at h
  split at h
  · exact absurd h (by simp)
  · split at h
    · exact absurd h (by simp)
    · rename_i h1 h2
      rw [Except.ok.injEq] at h
      subst h
      rw [Bool.not_eq_false] at h2
      rw [pyIsdigit, Bool.and_eq_true] at h2
      simp only [validPhoneB, Bool.and_eq_true, decide_eq_true_eq]
      exact ⟨by omega, h2.2⟩

theorem setter_ok_length (s p : String)
    (h : phone_value_setter s = Except.ok p) : p = s := by
  unfold phone_value_setter at h
  split at h
  · exact absurd h (by simp)
  · split at h
    · exact absurd h (by simp)
    · rw [Except.ok.injEq] at h
      exact h.symm

theorem replaceFirst_all {p : String → Bool} (l : List String) (old v : String)
    (hl : l.all p = true) (hv : p v = true) : (replaceFirst l old v).all p = true := by
  induction l with
  | nil => simp [replaceFirst]
  | cons x rest ih =>
    simp only [List.all_cons, Bool.and_eq_true] at hl
    by_cases h : x == old
    · simp [replaceFirst, h, hv, hl.2]
    · simp only [replaceFirst, h, Bool.false_eq_true, if_false, List.all_cons,
        Bool.and_eq_true]
      exact ⟨hl.1, ih hl.2⟩

theorem mkRecord_phones (name : String) (bd : Option String) (r : Record)
    (h : mkRecord name bd = Except.ok r) : r.phone_numbers = [] := by
  unfold mkRecord at h
  split at h
  · exact absurd h (by simp)
  · rw [Except.ok.injEq] at h
    subst h
    rfl

theorem recordOKb_add_phone (r : Record) (s : String) (r2 : Record)
    (hr : recordOKb r = true) (h : Record.add_phone r s = Except.ok r2) :
    recordOKb r2 = true := by
  unfold Record.add_phone at h
  split at h
  · exact absurd h (by simp)
  · rename_i p hp
    rw [Except.ok.injEq] at h
    subst h
    simp only [recordOKb, List.all_append, Bool.and_eq_true]
    exact ⟨hr, by simp [validPhoneB_of_setter s p hp]⟩

/-- C1: a phone string fails validation (in construction and in every
later assignment, which run the same setter) exactly when its length
is not 10 or some character is not a decimal digit; a 10-digit string
is accepted and stored verbatim. -/
theorem c1_phone_validation (s : String) :
    ((s.length ≠ 10 ∨ ∃ c ∈ s.data, c.isDigit = false) →
      ∃ e, phone_value_setter s = Except.error e) ∧
    ((s.length = 10 ∧ ∀ c ∈ s.data, c.isDigit = true) →
      phone_value_setter s = Except.ok s) := by
  constructor
  · intro h
    unfold phone_value_setter
    by_cases hlen : s.length = 10
    · rcases h with h | ⟨c, hc, hcd⟩
      · exact absurd hlen h
      · have hall : s.data.all Char.isDigit = false := by
          rw [List.all_eq_false]
          exact ⟨c, hc, by simp [hcd]⟩
        have hdig : pyIsdigit s = false := by
          simp [pyIsdigit, hall]
        rw [if_neg (by simp [hlen]), if_pos hdig]
        exact ⟨_, rfl⟩
    · rw [if_pos hlen]
      exact ⟨_, rfl⟩
  · rintro ⟨h1, h2⟩
    have hne : s.data.isEmpty = false := by
      have hlen : s.data.length = 10 := by rw [string_length_data, h1]
      cases hd : s.data with
      | nil => rw [hd] at hlen; simp at hlen
      | cons a as => simp
    have hdig : pyIsdigit s = true := by
      simp only [pyIsdigit, hne, Bool.not_false, Bool.true_and]
      rw [List.all_eq_true]
      exact h2
    rw [phone_value_setter, if_neg (by simp [h1]), if_neg (by simp [hdig])]


/-- Witness for C1 at concrete inputs: a 10-digit string is accepted
verbatim and a short string is rejected. -/
theorem c1_phone_validation_witness :
    phone_value_setter "0123456789" = Except.ok "0123456789" ∧
    (∃ e, phone_value_setter "12" = Except.error e) :=
  ⟨(c1_phone_validation "0123456789").2 (by decide),
   (c1_phone_validation "12").1 (by decide)⟩

/-- C2 (code bug evidence): on a record with no birthday set,
days_to_birthday does not return None: the `if not self.birthday`
guard tests the always-truthy Birthday object, so execution reaches
None.replace and raises AttributeError. -/
theorem c2_days_to_birthday_none_attribute_error :
    Record.days_to_birthday (Record.mk "Ann" [] (Birthday.mk none)) (PyDate.mk 2024 1 1) =
      Except.error PyError.attributeError := rfl

/-- C4: edit_phone on an old value matching none of the record phones
raises the not-found ValueError (so the wrapped handler reports it and,
the record being returned only on success, the phone list stays as it
was); and with an invalid new value the result is an error as well, the
setter raising before any element is rewritten. -/
theorem c4_edit_phone_errors (r : Record) (old_phone new_phone : String) :
    ((∀ p ∈ r.phone_numbers, p ≠ old_phone) →
      Record.edit_phone r old_phone new_phone =
        Except.error (PyError.valueError "Phone number not found")) ∧
    (∀ e, phone_value_setter new_phone = Except.error e →
      ∃ e2, Record.edit_phone r old_phone new_phone = Except.error e2) := by
  constructor
  · intro h
    have hf : r.phone_numbers.filter (fun p => p == old_phone) = [] := by
      rw [List.filter_eq_nil_iff]
      intro p hp
      simp [h p hp]
    unfold Record.edit_phone
    rw [hf]
  · intro e he
    unfold Record.edit_phone
    cases hf : r.phone_numbers.filter (fun p => p == old_phone) with
    | nil => exact ⟨_, rfl⟩
    | cons a as =>
      rw [he]
      exact ⟨e, rfl⟩

/-- Witness for C4: the not-found error on a missing old value, and an
error on an invalid new value. -/
theorem c4_edit_phone_errors_witness :
    Record.edit_phone recA "9999999999" "0000000000" =
      Except.error (PyError.valueError "Phone number not found") ∧
    (∃ e2, Record.edit_phone recA "0123456789" "12" = Except.error e2) :=
  ⟨(c4_edit_phone_errors recA "9999999999" "0000000000").1 (by decide),
   (c4_edit_phone_errors recA "0123456789" "12").2
     (PyError.valueError "Phone number should be 10 digits long.") rfl⟩

/-- C9: add_record then find under the record name returns a record of
that name, and delete then find under a name returns none. -/
theorem c9_add_find_delete :
    (∀ (book : AddressBook) (r : Record),
      (AddressBook.find (AddressBook.add_record book r) r.name).map Record.name =
        some r.name) ∧
    (∀ (book : AddressBook) (name : String),
      AddressBook.find (AddressBook.delete book name) name = none) := by
  constructor
  · intro book r
    unfold AddressBook.find AddressBook.add_record
    rw [dictGet_dictSet_self]
    rfl
  · intro book name
    unfold AddressBook.find AddressBook.delete
    rw [dictGet_dictPop_self]

/-- Witness for C9 on a concrete book and record. -/
theorem c9_add_find_delete_witness :
    (AddressBook.find (AddressBook.add_record book0 recA) "ann").map Record.name =
      some "ann" ∧
    AddressBook.find (AddressBook.delete book0 "bob") "bob" = none :=
  ⟨c9_add_find_delete.1 book0 recA, c9_add_find_delete.2 book0 "bob"⟩


/-! Lemmas about the pagination chunks. -/

theorem iterator_eq_chunksOf (book : AddressBook) (n : Nat) :
    AddressBook.iterator book n = chunksOf (book.data.map Prod.snd) n := by
  unfold AddressBook.iterator chunksOf
  rw [List.length_map]

theorem chunksOf_nil {α : Type} (n : Nat) : chunksOf ([] : List α) n = [] := by
  unfold chunksOf pyRange
  cases n with
  | zero => simp
  | succ m =>
    have h : (List.length ([] : List α) - 0 + (m + 1) - 1) / (m + 1) = 0 :=
      Nat.div_eq_of_lt (by simp)
    rw [h]
    simp

theorem chunksOf_cons {α : Type} (l : List α) (n : Nat) (hn : 0 < n) (hl : l ≠ []) :
    chunksOf l n = l.take n :: chunksOf (l.drop n) n := by
  have hlen : 0 < l.length := List.length_pos.mpr hl
  have hcount : (l.length - 0 + n - 1) / n = ((l.drop n).length - 0 + n - 1) / n + 1 := by
    rw [List.length_drop]
    simp only [Nat.sub_zero]
    rcases Nat.lt_or_ge l.length n with hc | hc
    · have h1 : l.length - n = 0 := by omega
      have h2 : l.length + n - 1 = (l.length - 1) + n := by omega
      rw [h1, h2, Nat.add_div_right _ hn, Nat.div_eq_of_lt (by omega),
        Nat.div_eq_of_lt (by omega)]
    · have h2 : l.length + n - 1 = (l.length - n + n - 1) + n := by omega
      rw [h2, Nat.add_div_right _ hn]
  unfold chunksOf pyRange
  rw [hcount, List.range_succ_eq_map]
  simp only [List.map_cons, List.map_map]
  congr 1
  apply List.map_congr_left
  intro a ha
  simp only [Function.comp_apply, Nat.succ_eq_add_one, Nat.zero_add, List.drop_drop]
  rw [Nat.mul_succ, Nat.add_comm (n * a) n]

theorem chunksOf_ne_nil {α : Type} (l : List α) (n : Nat) (hn : 0 < n) (hl : l ≠ []) :
    chunksOf l n ≠ [] := by
  rw [chunksOf_cons l n hn hl]
  simp

theorem chunksOf_flatten {α : Type} (l : List α) (n : Nat) (hn : 0 < n) :
    (chunksOf l n).flatten = l := by
  by_cases hl : l = []
  · subst hl
    rw [chunksOf_nil]
    rfl
  · rw [chunksOf_cons l n hn hl, List.flatten_cons,
      chunksOf_flatten (l.drop n) n hn, List.take_append_drop]
termination_by l.length
decreasing_by
  have hlen : 0 < l.length := List.length_pos.mpr hl
  rw [List.length_drop]
  omega

theorem chunksOf_length {α : Type} (l : List α) (n : Nat) :
    (chunksOf l n).length = (l.length + n - 1) / n := by
  unfold chunksOf pyRange
  simp

theorem chunksOf_dropLast {α : Type} (l : List α) (n : Nat) (hn : 0 < n) :
    ∀ b ∈ (chunksOf l n).dropLast, b.length = n := by
  by_cases hl : l = []
  · subst hl
    rw [chunksOf_nil]
    simp
  · rw [chunksOf_cons l n hn hl]
    by_cases hd : l.drop n = []
    · rw [hd, chunksOf_nil]
      simp
    · rw [List.dropLast_cons_of_ne_nil (chunksOf_ne_nil (l.drop n) n hn hd)]
      intro b hb
      rcases List.mem_cons.mp hb with hb | hb
      · subst hb
        have hlen : n < l.length := by
          have h1 : 0 < (l.drop n).length := List.length_pos.mpr hd
          rw [List.length_drop] at h1
          omega
        rw [List.length_take]
        exact Nat.min_eq_left (by omega)
      · exact chunksOf_dropLast (l.drop n) n hn b hb
termination_by l.length
decreasing_by
  have hlen : 0 < l.length := List.length_pos.mpr hl
  rw [List.length_drop]
  omega

theorem chunksOf_getLast {α : Type} (l : List α) (n : Nat) (hn : 0 < n) :
    ∀ b, (chunksOf l n).getLast? = some b →
      b.length = if l.length % n = 0 then n else l.length % n := by
  by_cases hl : l = []
  · rw [hl, chunksOf_nil]
    intro b hb
    simp at hb
  · rw [chunksOf_cons l n hn hl]
    by_cases hd : l.drop n = []
    · rw [hd, chunksOf_nil]
      intro b hb
      simp only [List.getLast?_singleton, Option.some.injEq] at hb
      subst hb
      have hpos : 0 < l.length := List.length_pos.mpr hl
      have hle : l.length ≤ n := by
        have h1 : (l.drop n).length = 0 := by rw [hd]; rfl
        rw [List.length_drop] at h1
        omega
      rw [List.length_take, Nat.min_eq_right hle]
      rcases Nat.lt_or_ge l.length n with hc | hc
      · rw [if_neg (by rw [Nat.mod_eq_of_lt hc]; omega), Nat.mod_eq_of_lt hc]
      · have heq : l.length = n := by omega
        rw [heq, if_pos (Nat.mod_self n)]
    · intro b hb
      obtain ⟨x, xs, hx⟩ := List.exists_cons_of_ne_nil (chunksOf_ne_nil (l.drop n) n hn hd)
      rw [hx, List.getLast?_cons_cons, ← hx] at hb
      have hlen : n < l.length := by
        have h1 : 0 < (l.drop n).length := List.length_pos.mpr hd
        rw [List.length_drop] at h1
        omega
      have hmod : l.length % n = (l.length - n) % n := by
        conv_lhs => rw [show l.length = (l.length - n) + n by omega]
        rw [Nat.add_mod_right]
      have hres := chunksOf_getLast (l.drop n) n hn b hb
      rw [List.length_drop] at hres
      rw [hmod]
      exact hres
termination_by l.length
decreasing_by
  have hlen : 0 < l.length := List.length_pos.mpr hl
  rw [List.length_drop]
  omega


/-- C6: for a positive page size n over a k-record book, the iterator
yields ceil(k/n) batches; every batch before the last has exactly n
records; the last batch has k mod n records, or n when n divides k;
and the concatenation of the batches is exactly the book's record list
in iteration order (so each record appears exactly once). -/
theorem c6_iterator_pagination (book : AddressBook) (n : Nat) (hn : 0 < n) :
    (book.iterator n).length = (book.data.length + n - 1) / n ∧
    (∀ b ∈ (book.iterator n).dropLast, b.length = n) ∧
    (∀ b, (book.iterator n).getLast? = some b →
      b.length = if book.data.length % n = 0 then n else book.data.length % n) ∧
    (book.iterator n).flatten = book.data.map Prod.snd := by
  have hv : (book.data.map Prod.snd).length = book.data.length := List.length_map _ _
  rw [iterator_eq_chunksOf]
  refine ⟨?_, ?_, ?_, ?_⟩
  · rw [chunksOf_length, hv]
  · exact chunksOf_dropLast _ n hn
  · intro b hb
    have h := chunksOf_getLast _ n hn b hb
    rw [hv] at h
    exact h
  · exact chunksOf_flatten _ n hn

/-- Witness for C6: pages of size 2 over the five-record sample book. -/
theorem c6_iterator_pagination_witness :
    0 < 2 ∧ (book5.iterator 2).length = (book5.data.length + 2 - 1) / 2 ∧
      (book5.iterator 2).flatten = book5.data.map Prod.snd :=
  ⟨by decide, (c6_iterator_pagination book5 2 (by decide)).1,
   (c6_iterator_pagination book5 2 (by decide)).2.2.2⟩


/-- C8: every fault a handler raises is caught at the decorator
boundary and turned into the corresponding user-facing message (the
book left exactly as the handler left it); show_all raises nothing;
and the fault kinds without a dedicated except clause (IndexError from
missing tokens, AttributeError from the find refetch) fall to the
catch-all branch and surface as the generic invalid-command message. -/
theorem c8_handler_boundary :
    (∀ (book : AddressBook) (cmd : String) (e : PyError) (b : AddressBook),
      add_contact_raw book cmd = (Except.error e, b) →
      add_contact book cmd = (input_error_msg e, b)) ∧
    (∀ (book : AddressBook) (cmd : String) (e : PyError) (b : AddressBook),
      change_contact_raw book cmd = (Except.error e, b) →
      change_contact book cmd = (input_error_msg e, b)) ∧
    (∀ (book : AddressBook) (cmd : String) (e : PyError),
      get_phone_raw book cmd = Except.error e →
      get_phone book cmd = input_error_msg e) ∧
    (∀ (book : AddressBook) (cmd : String) (e : PyError),
      find_contacts_raw book cmd = Except.error e →
      find_contacts book cmd = Sum.inl (input_error_msg e)) ∧
    (∀ book : AddressBook, ∃ v, show_all_raw book = Except.ok v) ∧
    input_error_msg PyError.indexError = "Invalid command. Please try again." ∧
    input_error_msg PyError.attributeError = "Invalid command. Please try again." := by
  refine ⟨?_, ?_, ?_, ?_, ?_, rfl, rfl⟩
  · intro book cmd e b h
    unfold add_contact
    rw [h]
    rfl
  · intro book cmd e b h
    unfold change_contact
    rw [h]
    rfl
  · intro book cmd e h
    unfold get_phone
    rw [h]
    rfl
  · intro book cmd e h
    unfold find_contacts
    rw [h]
    rfl
  · intro book
    unfold show_all_raw
    by_cases h : book.data.isEmpty
    · rw [if_pos h]
      exact ⟨_, rfl⟩
    · rw [if_neg h]
      exact ⟨_, rfl⟩

/-- Witness for C8: each handler converting a concrete raised fault
(IndexError from a bare command word) to the generic message. -/
theorem c8_handler_boundary_witness :
    add_contact (AddressBook.mk []) "add" =
      ("Invalid command. Please try again.", AddressBook.mk []) ∧
    change_contact (AddressBook.mk []) "change" =
      ("Invalid command. Please try again.", AddressBook.mk []) ∧
    get_phone (AddressBook.mk []) "phone" = "Invalid command. Please try again." ∧
    find_contacts (AddressBook.mk []) "find" = Sum.inl "Invalid command. Please try again." ∧
    (∃ v, show_all_raw (AddressBook.mk []) = Except.ok v) :=
  ⟨c8_handler_boundary.1 (AddressBook.mk []) "add" PyError.indexError (AddressBook.mk []) rfl,
   c8_handler_boundary.2.1 (AddressBook.mk []) "change" PyError.indexError (AddressBook.mk []) rfl,
   c8_handler_boundary.2.2.1 (AddressBook.mk []) "phone" PyError.indexError rfl,
   c8_handler_boundary.2.2.2.1 (AddressBook.mk []) "find" PyError.indexError rfl,
   c8_handler_boundary.2.2.2.2.1 (AddressBook.mk [])⟩

/-- C5 counterexample: on the add command with the name token absent
(the bare word "add"), the handler reports the generic invalid-command
message, not the missing-name message, because parts[1] raises
IndexError before the name check runs. -/
theorem c5_counterexample :
    add_contact (AddressBook.mk []) "add" =
      ("Invalid command. Please try again.", AddressBook.mk []) ∧
    "Invalid command. Please try again." ≠ "Name is missing. Please provide a name." :=
  ⟨rfl, by decide⟩

/-- C5 as amended: an add command whose name token is present but
empty (two spaces after add) fails with MissingNameError, reported as
the missing-name message; a command with fewer than three
space-separated tokens (name or phone token absent) raises IndexError
instead, reported as the generic invalid-command message. -/
theorem c5_add_name_errors (book : AddressBook) (cmd phone : String) (rest : List String) :
    (pySplit cmd = ["add", "", phone] ++ rest →
      add_contact book cmd = ("Name is missing. Please provide a name.", book)) ∧
    ((pySplit cmd).length < 3 →
      add_contact book cmd = ("Invalid command. Please try again.", book)) := by
  constructor
  · intro h
    unfold add_contact add_contact_raw
    rw [h]
    simp [input_error, input_error_msg]
  · intro h
    unfold add_contact add_contact_raw
    dsimp only
    rcases h1 : (pySplit cmd)[1]? with _ | name
    · rfl
    · rcases h2 : (pySplit cmd)[2]? with _ | phone2
      · rfl
      · exfalso
        rw [List.getElem?_eq_some] at h2
        obtain ⟨hlt, _⟩ := h2
        omega

/-- Witness for C5: the empty-name and the absent-token cases at
concrete commands. -/
theorem c5_add_name_errors_witness :
    add_contact (AddressBook.mk []) "add  0123456789" =
      ("Name is missing. Please provide a name.", AddressBook.mk []) ∧
    add_contact (AddressBook.mk []) "add x" =
      ("Invalid command. Please try again.", AddressBook.mk []) :=
  ⟨(c5_add_name_errors (AddressBook.mk []) "add  0123456789" "0123456789" []).1 rfl,
   (c5_add_name_errors (AddressBook.mk []) "add x" "" []).2 (by decide)⟩

/-- C10 counterexample: add with a fresh name, the invalid phone token
"12", and a malformed birthday token returns the birthday format
message, not the phone validation message ("Phone number should be 10
digits long."): Record(name, birthday) is constructed, and raises,
before add_phone validates the phone.  The book is still unchanged. -/
theorem c10_counterexample :
    add_contact (AddressBook.mk []) "add bob 12 notadate" =
      ("Invalid birthday format. Use YYYY-MM-DD.", AddressBook.mk []) ∧
    phone_value_setter "12" =
      Except.error (PyError.valueError "Phone number should be 10 digits long.") ∧
    "Invalid birthday format. Use YYYY-MM-DD." ≠ "Phone number should be 10 digits long." :=
  ⟨rfl, rfl, by decide⟩

/-- C10 as amended: for every add command with a fresh, non-empty name
and an invalid phone token, the failure happens before the insertion,
so the handler returns a validation message and the book is returned
unchanged in every case; the message is the phone validation message
when the birthday token is absent or well-formed, and the birthday
format message when the birthday token is malformed, because Record
construction (which parses the birthday) runs before add_phone. -/
theorem c10_add_invalid_phone (book : AddressBook) (cmd name phone msg : String)
    (rest : List String) :
    pySplit cmd = "add" :: name :: phone :: rest →
    name ≠ "" →
    dictGet book.data name = none →
    phone_value_setter phone = Except.error (PyError.valueError msg) →
    (add_contact book cmd).2 = book ∧
    ((∃ r0, mkRecord name rest[0]? = Except.ok r0) →
      add_contact book cmd = (msg, book)) ∧
    (∀ e, mkRecord name rest[0]? = Except.error e →
      add_contact book cmd = (input_error_msg e, book)) := by
  intro h1 h2 h3 h4
  unfold add_contact add_contact_raw
  rw [h1]
  simp only [List.getElem?_cons_succ, List.getElem?_cons_zero]
  rw [if_neg h2, h3]
  refine ⟨?_, ?_, ?_⟩
  · cases hrec : mkRecord name rest[0]? with
    | error e => rfl
    | ok r0 =>
      unfold Record.add_phone
      rw [h4]
      rfl
  · rintro ⟨r0, hrec⟩
    rw [hrec]
    unfold Record.add_phone
    rw [h4]
    rfl
  · intro e hrec
    rw [hrec]
    rfl

/-- Witness for C10: with the birthday token absent the handler returns
the phone length message, with a malformed birthday token it returns
the birthday format message; the empty book stays empty both times. -/
theorem c10_add_invalid_phone_witness :
    add_contact (AddressBook.mk []) "add bob 12" =
      ("Phone number should be 10 digits long.", AddressBook.mk []) ∧
    add_contact (AddressBook.mk []) "add bob 12 notadate" =
      ("Invalid birthday format. Use YYYY-MM-DD.", AddressBook.mk []) :=
  ⟨(c10_add_invalid_phone (AddressBook.mk []) "add bob 12" "bob" "12"
      "Phone number should be 10 digits long." [] rfl (by decide) rfl rfl).2.1
      ⟨Record.mk "bob" [] (Birthday.mk none), rfl⟩,
   (c10_add_invalid_phone (AddressBook.mk []) "add bob 12 notadate" "bob" "12"
      "Phone number should be 10 digits long." ["notadate"] rfl (by decide) rfl rfl).2.2
      (PyError.valueError "Invalid birthday format. Use YYYY-MM-DD.") rfl⟩


/-- C3 counterexample: changing bob's phone with the birthday token
omitted succeeds, replaces the phone list, and leaves the previously
stored birthday in place (still 1990-05-01, not cleared to none): the
Birthday setter ignores a falsy value instead of clearing _value. -/
theorem c3_counterexample :
    (dictGet (change_contact book0 "change bob 0123456789").2.data "bob").map
        (fun r => (r.phone_numbers, r.birthday.val)) =
      some (["0123456789"], some (PyDate.mk 1990 5 1)) ∧
    some (PyDate.mk 1990 5 1) ≠ (none : Option PyDate) :=
  ⟨rfl, by decide⟩

/-- C3 as amended: on an existing contact the change handler replaces
the record's entire phone list with exactly the one new (valid) phone;
it overwrites the birthday when a non-empty valid birthday token is
given, and leaves the existing birthday unchanged (rather than
clearing it) when the token is omitted. -/
theorem c3_change_replaces_phones (book : AddressBook) (cmd name phone p : String)
    (r : Record) :
    (pySplitMax cmd 3 = ["change", name, phone] →
      dictGet book.data name = some r →
      phone_value_setter phone = Except.ok p →
      change_contact book cmd =
        ("Changed phone number for " ++ name ++ " to " ++ phone,
         AddressBook.mk (dictSet book.data name { r with phone_numbers := [p] }))) ∧
    (∀ (bd : String) (d : PyDate), pySplitMax cmd 3 = ["change", name, phone, bd] →
      bd ≠ "" →
      fromIsoformat bd = Except.ok d →
      dictGet book.data name = some r →
      phone_value_setter phone = Except.ok p →
      change_contact book cmd =
        ("Changed phone number for " ++ name ++ " to " ++ phone,
         AddressBook.mk (dictSet book.data name
           { r with phone_numbers := [p], birthday := Birthday.mk (some d) }))) := by
  constructor
  · intro h1 h2 h3
    unfold change_contact change_contact_raw
    rw [h1]
    simp only [List.getElem?_cons_succ, List.getElem?_cons_zero, List.getElem?_nil]
    rw [h2, h3]
    unfold birthday_setter
    simp only [input_error]
    rw [dictSet_dictSet_self]
  · intro bd d h1 hbd hiso h2 h3
    unfold change_contact change_contact_raw
    rw [h1]
    simp only [List.getElem?_cons_succ, List.getElem?_cons_zero]
    rw [h2, h3]
    unfold birthday_setter
    dsimp only
    rw [if_neg hbd, hiso]
    simp only [input_error]
    rw [dictSet_dictSet_self]

/-- Witness for C3: both the omitted-birthday and the given-birthday
cases of the change handler on the sample book. -/
theorem c3_change_replaces_phones_witness :
    change_contact book0 "change bob 0123456789" =
      ("Changed phone number for bob to 0123456789",
       AddressBook.mk (dictSet book0.data "bob"
         (Record.mk "bob" ["0123456789"] (Birthday.mk (some (PyDate.mk 1990 5 1)))))) ∧
    change_contact book0 "change bob 0123456789 1991-06-02" =
      ("Changed phone number for bob to 0123456789",
       AddressBook.mk (dictSet book0.data "bob"
         (Record.mk "bob" ["0123456789"] (Birthday.mk (some (PyDate.mk 1991 6 2)))))) :=
  ⟨(c3_change_replaces_phones book0 "change bob 0123456789" "bob" "0123456789" "0123456789"
      (Record.mk "bob" ["1111111111"] (Birthday.mk (some (PyDate.mk 1990 5 1))))).1
      rfl rfl rfl,
   (c3_change_replaces_phones book0 "change bob 0123456789 1991-06-02" "bob" "0123456789"
      "0123456789"
      (Record.mk "bob" ["1111111111"] (Birthday.mk (some (PyDate.mk 1990 5 1))))).2
      "1991-06-02" (PyDate.mk 1991 6 2) rfl (by decide) rfl rfl rfl⟩


theorem recordOKb_edit_phone (r : Record) (o s : String) (r2 : Record)
    (hr : recordOKb r = true) (h : Record.edit_phone r o s = Except.ok r2) :
    recordOKb r2 = true := by
  unfold Record.edit_phone at h
  split at h
  · exact absurd h (by simp)
  · split at h
    · exact absurd h (by simp)
    · rename_i v hv
      rw [Except.ok.injEq] at h
      subst h
      exact replaceFirst_all r.phone_numbers o v hr (validPhoneB_of_setter s v hv)

theorem bookOKb_add_contact (book : AddressBook) (cmd : String)
    (h : bookOKb book = true) : bookOKb (add_contact book cmd).2 = true := by
  unfold add_contact
  rw [input_error_snd]
  unfold add_contact_raw
  dsimp only
  split
  · exact h
  · split
    · exact h
    · split
      · exact h
      · split
        · exact h
        · split
          · exact h
          · rename_i r0 hrec
            split
            · exact h
            · rename_i r2 hadd
              have hr0 : recordOKb r0 = true := by
                rw [recordOKb, mkRecord_phones _ _ _ hrec]
                rfl
              have hr2 : recordOKb r2 = true := recordOKb_add_phone r0 _ r2 hr0 hadd
              unfold AddressBook.add_record bookOKb
              exact dictSet_all book.data r2.name r2 h hr2

theorem bookOKb_change_contact (book : AddressBook) (cmd : String)
    (h : bookOKb book = true) : bookOKb (change_contact book cmd).2 = true := by
  unfold change_contact
  rw [input_error_snd]
  unfold change_contact_raw
  dsimp only
  split
  · exact h
  · split
    · exact h
    · split
      · exact h
      · rename_i r0 hget
        split
        · exact h
        · rename_i p hp
          have hp1 : recordOKb { r0 with phone_numbers := [p] } = true := by
            rw [recordOKb]
            simp [validPhoneB_of_setter _ p hp]
          split
          · exact dictSet_all book.data _ _ h hp1
          · refine dictSet_all _ _ _ (dictSet_all book.data _ _ h hp1) ?_
            rw [recordOKb]
            simp [validPhoneB_of_setter _ p hp]

/-- C7: the 10-digit invariant is preserved everywhere phones are
created or mutated: the Phone setter only ever stores valid values; a
fresh Record has no phones; add_phone and edit_phone keep every stored
phone valid; and the add and change handlers keep every phone of every
record of the book valid. -/
theorem c7_phone_invariant :
    (∀ s p, phone_value_setter s = Except.ok p → validPhoneB p = true) ∧
    (∀ name bd r, mkRecord name bd = Except.ok r → recordOKb r = true) ∧
    (∀ r s r2, recordOKb r = true → Record.add_phone r s = Except.ok r2 →
      recordOKb r2 = true) ∧
    (∀ r o s r2, recordOKb r = true → Record.edit_phone r o s = Except.ok r2 →
      recordOKb r2 = true) ∧
    (∀ book cmd, bookOKb book = true → bookOKb (add_contact book cmd).2 = true) ∧
    (∀ book cmd, bookOKb book = true → bookOKb (change_contact book cmd).2 = true) := by
  refine ⟨validPhoneB_of_setter, ?_, ?_, recordOKb_edit_phone,
    bookOKb_add_contact, bookOKb_change_contact⟩
  · intro name bd r h
    rw [recordOKb, mkRecord_phones name bd r h]
    rfl
  · intro r s r2 hr h
    exact recordOKb_add_phone r s r2 hr h

/-- Witness for C7: each clause exercised at concrete inputs. -/
theorem c7_phone_invariant_witness :
    validPhoneB "0123456789" = true ∧
    recordOKb (Record.mk "bob" [] (Birthday.mk none)) = true ∧
    recordOKb (Record.mk "ann" ["0123456789", "1111111111"] (Birthday.mk none)) = true ∧
    recordOKb (Record.mk "ann" ["2222222222"] (Birthday.mk none)) = true ∧
    bookOKb (add_contact (AddressBook.mk []) "add bob 0123456789").2 = true ∧
    bookOKb (change_contact book0 "change bob 0123456789").2 = true :=
  ⟨c7_phone_invariant.1 "0123456789" "0123456789" rfl,
   c7_phone_invariant.2.1 "bob" none (Record.mk "bob" [] (Birthday.mk none)) rfl,
   c7_phone_invariant.2.2.1 (Record.mk "ann" ["0123456789"] (Birthday.mk none)) "1111111111"
     (Record.mk "ann" ["0123456789", "1111111111"] (Birthday.mk none)) (by decide) rfl,
   c7_phone_invariant.2.2.2.1 (Record.mk "ann" ["0123456789"] (Birthday.mk none))
     "0123456789" "2222222222" (Record.mk "ann" ["2222222222"] (Birthday.mk none))
     (by decide) rfl,
   c7_phone_invariant.2.2.2.2.1 (AddressBook.mk []) "add bob 0123456789" rfl,
   c7_phone_invariant.2.2.2.2.2 book0 "change bob 0123456789" (by decide)⟩

end HW12
